import Mathlib

/-!
Shallow embedding of `src/AddDatasets/addFile.py` (document upload client).

The script validates a local file, loads an API key from a credential
file, validates configuration strings, and performs one multipart upload,
classifying the outcome.  Filesystem state, credential-file contents and
the transport outcome are explicit inputs; logging is modelled as a list
of emitted log lines, and side effects (credential read, file stat, HTTP
POST) as an explicit effect trace.
-/

namespace AddFile

/-- A log line as emitted through the `logging` module. -/
inductive LogLevel where
  | debug
  | info
  | warning
  | error
deriving DecidableEq, Repr

/-- One structured log record: level and message. -/
structure LogLine where
  level : LogLevel
  msg : String
deriving DecidableEq, Repr

/-- `ConfigurationError`: custom exception for configuration issues. -/
structure ConfigurationError where
  msg : String
deriving DecidableEq, Repr

/-- `DocumentUploadError`: custom exception for document upload failures. -/
structure DocumentUploadError where
  msg : String
deriving DecidableEq, Repr

/-- Observable filesystem facts about the target file, as queried by
`validate_file_path` (`path.exists()`, `path.is_file()`,
`os.access(path, os.R_OK)`, `path.stat().st_size`). -/
structure FileInfo where
  pathExists : Bool
  isFile : Bool
  readable : Bool
  size : Nat
deriving DecidableEq, Repr

/-- `max_size = 100 * 1024 * 1024` from `validate_file_path`. -/
def max_size : Nat := 100 * 1024 * 1024

/-- Embedding of `validate_file_path` (addFile.py lines 43-79): checks
existence, regular-file, readability, size bound, non-emptiness, in the
source's order; returns the validated path and the emitted log lines. -/
def validate_file_path (file_path : String) (info : FileInfo) :
    Except ConfigurationError String × List LogLine :=
  if !info.pathExists then
    (.error ⟨"File not found: " ++ file_path⟩, [])
  else if !info.isFile then
    (.error ⟨"Path is not a file: " ++ file_path⟩, [])
  else if !info.readable then
    (.error ⟨"File is not readable: " ++ file_path⟩, [])
  else if info.size > max_size then
    (.error ⟨"File too large: " ++ toString info.size ++ " bytes (max: 100MB)"⟩, [])
  else if info.size == 0 then
    (.error ⟨"File is empty: " ++ file_path⟩, [])
  else
    (.ok file_path,
     [⟨.info, "File validated: " ++ file_path ++ " (" ++ toString (info.size / 1024) ++ "KB)"⟩])

/-- Contents and accessibility of the credential file, as observed by
`load_api_key` (`cred_path.exists()`, `open(...)` which may raise
`IOError`, `f.readline()`). `lines` are the file's lines without their
trailing newlines. -/
structure CredFile where
  pathExists : Bool
  readable : Bool
  lines : List String
deriving DecidableEq, Repr

/-- Python's `str.strip()`: drop leading and trailing whitespace. -/
def pyStrip (s : String) : String :=
  String.mk (((s.toList.dropWhile Char.isWhitespace).reverse.dropWhile
    Char.isWhitespace).reverse)

/-- Embedding of `load_api_key` (addFile.py lines 169-205): existence
check, read of the first line only, `strip()`, emptiness and length
checks; an unreadable file models the `IOError` branch. -/
def load_api_key (credential_file : String) (cf : CredFile) :
    Except ConfigurationError String × List LogLine :=
  if !cf.pathExists then
    (.error ⟨"Credentials file not found: " ++ credential_file ++
      " Please create this file with your API key on the first line."⟩, [])
  else if !cf.readable then
    (.error ⟨"Error reading credentials file"⟩, [])
  else
    let api_key := pyStrip (cf.lines.headD "")
    if api_key = "" then
      (.error ⟨"API key is empty in credentials file"⟩, [])
    else if api_key.length < 10 then
      (.error ⟨"API key appears to be invalid (too short)"⟩, [])
    else
      (.ok api_key, [⟨.info, "API key loaded successfully"⟩])

/-- Number of occurrences of a character in a string (`str.count` in
Python for a single-character needle). -/
def countChar (c : Char) (s : String) : Nat :=
  (s.toList.filter (fun x => x = c)).length

/-- Embedding of `validate_configuration` (addFile.py lines 208-240):
non-emptiness checks on the three ids, then a warn-only UUID-shape check
on the mentor id (`len != 36 or count of - != 4`). -/
def validate_configuration (org_id user_id mentor_id : String) :
    Except ConfigurationError Unit × List LogLine :=
  if org_id = "" then
    (.error ⟨"Organization ID must be a non-empty string"⟩, [])
  else if user_id = "" then
    (.error ⟨"User ID must be a non-empty string"⟩, [])
  else if mentor_id = "" then
    (.error ⟨"Mentor ID must be a non-empty string"⟩, [])
  else
    let warnLog : List LogLine :=
      if mentor_id.length ≠ 36 ∨ countChar '-' mentor_id ≠ 4 then
        [⟨.warning, "Mentor ID format looks unusual: " ++ mentor_id ++
          " Expected UUID format (e.g., 25223e76-fc94-4cc2-aec1-f9fb51f0c2bf)"⟩]
      else []
    (.ok (), warnLog ++
      [⟨.info, "Configuration validated - Org: " ++ org_id ++ ", User: " ++ user_id⟩])

/-- The parsed command-line arguments (`argparse.Namespace`) with the
defaults set in `parse_arguments`. -/
structure Args where
  org_id : String := "syracuse"
  user_id : String
  mentor_id : String
  file : String
  credentials : String := "api_credentials.txt"
  base_url : String := "https://base.manager.ai.syr.edu"
  timeout : Int := 300
  verbose : Bool := false
deriving DecidableEq, Repr

/-- Outcome of `parse_arguments`: either the namespace, or the
`parser.error(...)` path, which prints a usage message and raises
`SystemExit` with process exit status 2. -/
inductive ParseResult where
  | ok (args : Args)
  | usageError (exitCode : Nat) (msg : String)
deriving DecidableEq, Repr

/-- Embedding of the validation tail of `parse_arguments` (addFile.py
lines 160-166): `if args.timeout < 1: parser.error(...)`. -/
def parse_arguments (args : Args) : ParseResult :=
  if args.timeout < 1 then
    .usageError 2 "Timeout must be at least 1 second"
  else
    .ok args

/-- A parsed JSON object body, modelled as an association list of
string keys to string values (the script only ever reads string
fields such as `document_id`). -/
abbrev JsonObj := List (String × String)

/-- `result.get(key)` / dict lookup on a parsed body. -/
def jsonGet (o : JsonObj) (k : String) : Option String :=
  (o.find? (fun kv => kv.1 = k)).map Prod.snd

/-- Rendering of a parsed JSON object into the error-message text, the
embedding of Python's dict-to-string conversion in
`f"Details: \x7berror_detail\x7d"`. -/
def renderJson (o : JsonObj) : String :=
  "\x7b" ++ String.intercalate ", " (o.map (fun kv => kv.1 ++ ": " ++ kv.2)) ++ "\x7d"

/-- Split a character list at every occurrence of a separator. -/
def splitOnChar (c : Char) : List Char → List (List Char)
  | [] => [[]]
  | x :: xs =>
    match splitOnChar c xs with
    | [] => if x = c then [[], []] else [[x]]
    | y :: ys => if x = c then [] :: y :: ys else (x :: y) :: ys

/-- ASCII lowercasing, Python's `str.lower()` as used on extensions. -/
def pyLower (s : String) : String :=
  String.mk (s.toList.map Char.toLower)

/-- `os.path`-style base name: the final component of a POSIX path
(`pathlib.Path(p).name`). -/
def pathName (p : String) : String :=
  String.mk ((splitOnChar '/' p.toList).getLastD p.toList)

/-- Index of the last occurrence of a character (`str.rfind`). -/
def lastIdxOf (c : Char) : List Char → Option Nat
  | [] => none
  | x :: xs =>
    match lastIdxOf c xs with
    | some i => some (i + 1)
    | none => if x = c then some 0 else none

/-- `pathlib.Path(p).suffix`: the extension of the final component,
including the dot; empty when the last dot is the first or last
character of the name. -/
def pathSuffix (p : String) : String :=
  let n := (pathName p).toList
  match lastIdxOf '.' n with
  | none => ""
  | some i => if 0 < i ∧ i < n.length - 1 then String.mk (n.drop i) else ""

/-- The `mime_types` dictionary of `upload_document`. -/
def mime_types : List (String × String) :=
  [(".pdf", "application/pdf"),
   (".txt", "text/plain"),
   (".doc", "application/msword"),
   (".docx", "application/vnd.openxmlformats-officedocument.wordprocessingml.document")]

/-- `mime_types.get(file_extension, octet-stream)`. -/
def mimeFor (ext : String) : String :=
  ((mime_types.find? (fun kv => kv.1 = ext)).map Prod.snd).getD "application/octet-stream"

/-- The multipart file part `files = ('file': (filename, stream, mime))`. -/
structure MultipartFilePart where
  fieldName : String
  filename : String
  mimeType : String
deriving DecidableEq, Repr

/-- The single outbound POST request as constructed by
`upload_document`: URL, Authorization header, multipart file part, and
the three form fields `pathway`, `type`, `name`. -/
structure UploadHttpRequest where
  url : String
  authorization : String
  filePart : MultipartFilePart
  pathwayField : String
  typeField : String
  nameField : String
deriving DecidableEq, Repr

/-- What the transport layer did with the request: a response (with body
both as optionally-parseable JSON and as raw text, plus the message a
failed JSON decode would raise), a timeout, a connection error, or any
other `requests.exceptions.RequestException`. -/
inductive TransportOutcome where
  | response (status : Nat) (jsonBody : Option JsonObj) (text : String) (parseErrMsg : String)
  | timeout
  | connectionError (msg : String)
  | requestException (msg : String)
deriving DecidableEq, Repr

/-- Embedding of `upload_document` (addFile.py lines 243-343): builds
the URL, headers, MIME type and multipart body, sends one POST, and
classifies the outcome.  A JSON-decode failure on a 200/201 body raises
`requests.exceptions.JSONDecodeError`, a `RequestException`, so it is
caught by the final handler and wrapped as `DocumentUploadError`
(`Request failed: ...`).  Returns the classified result, the log lines
emitted, and the request that was sent. -/
def upload_document (org_id user_id mentor_id : String) (file_path : String)
    (api_key : String) (base_url : String) (timeout : Int)
    (transport : TransportOutcome) :
    Except DocumentUploadError JsonObj × List LogLine × UploadHttpRequest :=
  let url := base_url ++ "/api/ai-index/orgs/" ++ org_id ++ "/users/" ++ user_id ++
    "/documents/train/"
  let file_extension := pyLower (pathSuffix file_path)
  let mime_type := mimeFor file_extension
  let mimeWarn : List LogLine :=
    if mime_type = "application/octet-stream" then
      [⟨.warning, "Unknown file type: " ++ file_extension ++ ", using generic MIME type"⟩]
    else []
  let doc_type := "file"
  let baseName := pathName file_path
  let preLogs : List LogLine := mimeWarn ++
    [⟨.info, "Uploading document: " ++ baseName⟩,
     ⟨.info, "Target URL: " ++ url⟩,
     ⟨.info, "Document type: " ++ doc_type ++ ", MIME type: " ++ mime_type⟩]
  let req : UploadHttpRequest :=
    { url := url
      authorization := "Api-Token " ++ api_key
      filePart := ⟨"file", baseName, mime_type⟩
      pathwayField := mentor_id
      typeField := doc_type
      nameField := baseName }
  match transport with
  | .response status jsonBody text parseErrMsg =>
    if status = 200 ∨ status = 201 then
      match jsonBody with
      | some result =>
        (.ok result,
         preLogs ++ [⟨.info, "Upload successful!"⟩,
           ⟨.info, "Document ID: " ++ (jsonGet result "document_id").getD "N/A"⟩],
         req)
      | none =>
        (.error ⟨"Request failed: " ++ parseErrMsg⟩, preLogs, req)
    else
      let error_msg :=
        "Upload failed with status " ++ toString status ++
          (match jsonBody with
           | some error_detail => " Details: " ++ renderJson error_detail
           | none => " Response: " ++ text)
      (.error ⟨error_msg⟩, preLogs ++ [⟨.error, error_msg⟩], req)
  | .timeout =>
    (.error ⟨"Upload timed out after " ++ toString timeout ++ " seconds. " ++
      "The file may be too large or the server is slow to respond."⟩, preLogs, req)
  | .connectionError m =>
    (.error ⟨"Connection error: " ++ m⟩, preLogs, req)
  | .requestException m =>
    (.error ⟨"Request failed: " ++ m⟩, preLogs, req)

/-- The separator banner line `"=" * 60` logged by `main`. -/
def sep60 : String := String.mk (List.replicate 60 '=')

/-- Observable side effects of one run, in order: reading the
credential file, statting/validating the target file, and the outbound
HTTP POST. -/
inductive Effect where
  | readCredentials (path : String)
  | statFile (path : String)
  | httpPost (req : UploadHttpRequest)
deriving DecidableEq, Repr

/-- The requests among an effect trace. -/
def sentRequests (effects : List Effect) : List UploadHttpRequest :=
  effects.filterMap fun e =>
    match e with
    | .httpPost r => some r
    | _ => none

/-- The whole environment a run observes: parsed arguments, credential
file, target-file facts, and the transport's behaviour. -/
structure World where
  args : Args
  credFile : CredFile
  fileInfo : FileInfo
  transport : TransportOutcome
deriving DecidableEq, Repr

/-- How the `try` block of `main` terminates: normally, or with one of
the exception kinds its handlers distinguish (addFile.py lines 397-414).
`keyboardInterrupt` and `unexpected` cover exceptions raised
asynchronously or by unmodelled library code. -/
inductive TryOutcome where
  | success (result : JsonObj)
  | configError (e : ConfigurationError)
  | uploadError (e : DocumentUploadError)
  | keyboardInterrupt
  | unexpected (msg : String)
deriving DecidableEq, Repr

/-- The exception-handler ladder of `main` (addFile.py lines 397-414)
mapped to the returned exit code. -/
def outcome_exit_code : TryOutcome → Nat
  | .success _ => 0
  | .configError _ => 1
  | .uploadError _ => 1
  | .keyboardInterrupt => 130
  | .unexpected _ => 1

/-- Log lines emitted at the end of `main` for each outcome: the
success banner or the handler's error lines. -/
def outcomeLogs : TryOutcome → List LogLine
  | .success _ =>
    [⟨.info, sep60⟩, ⟨.info, "Script completed successfully!"⟩, ⟨.info, sep60⟩]
  | .configError e =>
    [⟨.error, "Configuration Error: " ++ e.msg⟩,
     ⟨.error, "Please check your settings and try again."⟩]
  | .uploadError e => [⟨.error, "Upload Error: " ++ e.msg⟩]
  | .keyboardInterrupt => [⟨.warning, "Script interrupted by user"⟩]
  | .unexpected m => [⟨.error, "Unexpected error: " ++ m⟩]

/-- The `try` block of `main` (addFile.py lines 373-392):
`validate_configuration`, then `load_api_key`, then
`validate_file_path`, then `upload_document`; the first raised
`ConfigurationError` short-circuits the rest.  Returns the outcome, the
log lines of the block, and the effect trace. -/
def run_body (w : World) : TryOutcome × List LogLine × List Effect :=
  match validate_configuration w.args.org_id w.args.user_id w.args.mentor_id with
  | (.error e, lg1) => (.configError e, lg1, [])
  | (.ok _, lg1) =>
    match load_api_key w.args.credentials w.credFile with
    | (.error e, lg2) => (.configError e, lg1 ++ lg2, [.readCredentials w.args.credentials])
    | (.ok api_key, lg2) =>
      match validate_file_path w.args.file w.fileInfo with
      | (.error e, lg3) =>
        (.configError e, lg1 ++ lg2 ++ lg3,
         [.readCredentials w.args.credentials, .statFile w.args.file])
      | (.ok validated_path, lg3) =>
        match upload_document w.args.org_id w.args.user_id w.args.mentor_id
            validated_path api_key w.args.base_url w.args.timeout w.transport with
        | (.ok result, lg4, req) =>
          (.success result, lg1 ++ lg2 ++ lg3 ++ lg4,
           [.readCredentials w.args.credentials, .statFile w.args.file, .httpPost req])
        | (.error e, lg4, req) =>
          (.uploadError e, lg1 ++ lg2 ++ lg3 ++ lg4,
           [.readCredentials w.args.credentials, .statFile w.args.file, .httpPost req])

/-- The result of one whole process run: exit status, the outcome of
the `try` block when it was reached (`none` when `parse_arguments`
raised `SystemExit` first), logs and effects. -/
structure RunResult where
  exitCode : Nat
  outcome : Option TryOutcome
  logs : List LogLine
  effects : List Effect
deriving DecidableEq, Repr

/-- The banner and configuration-echo log lines of `main` (addFile.py
lines 356-371), emitted after argument parsing and before the `try`
block. -/
def headerLogs (a : Args) : List LogLine :=
  (if a.verbose then [⟨.debug, "Verbose logging enabled"⟩] else []) ++
  [⟨.info, sep60⟩, ⟨.info, "Document Upload Script Started"⟩, ⟨.info, sep60⟩,
   ⟨.info, "Organization: " ++ a.org_id⟩,
   ⟨.info, "User: " ++ a.user_id⟩,
   ⟨.info, "Mentor ID: " ++ a.mentor_id⟩,
   ⟨.info, "File: " ++ a.file⟩,
   ⟨.info, "Base URL: " ++ a.base_url⟩,
   ⟨.info, "Timeout: " ++ toString a.timeout ++ "s"⟩]

/-- Embedding of `main` plus `sys.exit(main())` (addFile.py lines
346-418): argument parsing (whose `parser.error` exits the process with
status 2 before anything else), header logging, the `try` block, and the
exception-handler ladder.  -/
def main_run (w : World) : RunResult :=
  match parse_arguments w.args with
  | .usageError code _ => ⟨code, none, [], []⟩
  | .ok a =>
    let r := run_body w
    ⟨outcome_exit_code r.1, some r.1, headerLogs a ++ r.2.1 ++ outcomeLogs r.1, r.2.2⟩

/-- C1: `validate_file_path` raises `ConfigurationError` if and only if
the path does not exist, is not a regular file, is not readable, is
empty, or its size exceeds 104,857,600 bytes; in particular a readable
regular file of exactly 104,857,600 bytes passes, and on success the
validated path is returned. -/
theorem validate_file_path_spec (fp : String) (info : FileInfo) :
    ((validate_file_path fp info).1 = Except.ok fp ↔
      info.pathExists = true ∧ info.isFile = true ∧ info.readable = true ∧
        info.size ≠ 0 ∧ info.size ≤ 104857600) ∧
    (¬ (info.pathExists = true ∧ info.isFile = true ∧ info.readable = true ∧
          info.size ≠ 0 ∧ info.size ≤ 104857600) →
      ∃ e : ConfigurationError, (validate_file_path fp info).1 = Except.error e) := by
  obtain ⟨pe, fi, rd, sz⟩ := info
  cases pe <;> cases fi <;> cases rd <;>
    simp [validate_file_path, max_size] <;> split_ifs <;> simp_all

/-- Witness for C1: a readable regular file of exactly 104,857,600
bytes passes and yields the path; one byte more fails. -/
theorem validate_file_path_spec_witness :
    (validate_file_path "doc.pdf" ⟨true, true, true, 104857600⟩).1 = Except.ok "doc.pdf" ∧
    ∃ e : ConfigurationError,
      (validate_file_path "doc.pdf" ⟨true, true, true, 104857601⟩).1 = Except.error e :=
  ⟨(validate_file_path_spec "doc.pdf" ⟨true, true, true, 104857600⟩).1.mpr (by decide),
   (validate_file_path_spec "doc.pdf" ⟨true, true, true, 104857601⟩).2 (by decide)⟩

/-- C5: `load_api_key` reads only the first line of the credential
file, trims it, and ignores the remaining lines; it raises
`ConfigurationError` iff the file is missing, unreadable, the trimmed
first line is blank, or the trimmed key is shorter than 10 characters;
otherwise it returns the trimmed key. -/
theorem load_api_key_spec (cred : String) (cf : CredFile) :
    ((load_api_key cred cf).1 = Except.ok (pyStrip (cf.lines.headD "")) ↔
      cf.pathExists = true ∧ cf.readable = true ∧ pyStrip (cf.lines.headD "") ≠ "" ∧
        10 ≤ (pyStrip (cf.lines.headD "")).length) ∧
    ((∃ e : ConfigurationError, (load_api_key cred cf).1 = Except.error e) ↔
      ¬ (cf.pathExists = true ∧ cf.readable = true ∧ pyStrip (cf.lines.headD "") ≠ "" ∧
          10 ≤ (pyStrip (cf.lines.headD "")).length)) ∧
    (∀ l rest, load_api_key cred ⟨cf.pathExists, cf.readable, l :: rest⟩ =
        load_api_key cred ⟨cf.pathExists, cf.readable, [l]⟩) := by
  obtain ⟨pe, rd, ls⟩ := cf
  cases pe <;> cases rd <;>
    simp [load_api_key] <;> split_ifs <;> simp_all

/-- Witness for C5: a two-line credential file yields the trimmed first
line; a 9-character key fails. -/
theorem load_api_key_spec_witness :
    (load_api_key "api_credentials.txt"
        ⟨true, true, ["  abcdefghij  ", "second line ignored"]⟩).1 =
      Except.ok "abcdefghij" ∧
    (∃ e : ConfigurationError,
      (load_api_key "api_credentials.txt" ⟨true, true, ["abcdefghi"]⟩).1 = Except.error e) ∧
    load_api_key "api_credentials.txt" ⟨true, true, ["  abcdefghij  ", "second line ignored"]⟩ =
      load_api_key "api_credentials.txt" ⟨true, true, ["  abcdefghij  "]⟩ :=
  ⟨(load_api_key_spec "api_credentials.txt"
      ⟨true, true, ["  abcdefghij  ", "second line ignored"]⟩).1.mpr (by decide),
   ((load_api_key_spec "api_credentials.txt" ⟨true, true, ["abcdefghi"]⟩).2.1).mpr (by decide),
   (load_api_key_spec "api_credentials.txt"
      ⟨true, true, ["  abcdefghij  ", "x"]⟩).2.2 "  abcdefghij  " ["second line ignored"] ▸
    rfl⟩

/-- C8: `validate_configuration` succeeds for all non-empty ids, raises
`ConfigurationError` exactly when one of them is empty, and records a
non-fatal warning (while still succeeding) when the mentor id is not 36
characters long or does not contain exactly 4 dashes. -/
theorem validate_configuration_spec (org_id user_id mentor_id : String) :
    ((validate_configuration org_id user_id mentor_id).1 = Except.ok () ↔
      org_id ≠ "" ∧ user_id ≠ "" ∧ mentor_id ≠ "") ∧
    ((∃ e : ConfigurationError,
        (validate_configuration org_id user_id mentor_id).1 = Except.error e) ↔
      org_id = "" ∨ user_id = "" ∨ mentor_id = "") ∧
    (org_id ≠ "" → user_id ≠ "" → mentor_id ≠ "" →
      (mentor_id.length ≠ 36 ∨ countChar '-' mentor_id ≠ 4) →
      (validate_configuration org_id user_id mentor_id).1 = Except.ok () ∧
        (⟨.warning, "Mentor ID format looks unusual: " ++ mentor_id ++
          " Expected UUID format (e.g., 25223e76-fc94-4cc2-aec1-f9fb51f0c2bf)"⟩ : LogLine) ∈
          (validate_configuration org_id user_id mentor_id).2) := by
  by_cases ho : org_id = "" <;> by_cases hu : user_id = "" <;> by_cases hm : mentor_id = "" <;>
    simp [validate_configuration, ho, hu, hm]

/-- Witness for C8: a short mentor id passes validation but records the
format warning. -/
theorem validate_configuration_spec_witness :
    (validate_configuration "syracuse" "jasidel" "abc-123").1 = Except.ok () ∧
    (⟨.warning, "Mentor ID format looks unusual: abc-123" ++
      " Expected UUID format (e.g., 25223e76-fc94-4cc2-aec1-f9fb51f0c2bf)"⟩ : LogLine) ∈
      (validate_configuration "syracuse" "jasidel" "abc-123").2 :=
  (validate_configuration_spec "syracuse" "jasidel" "abc-123").2.2
    (by decide) (by decide) (by decide) (by decide)

/-- C2: on HTTP status 200 or 201 the uploader returns the parsed body
as the success result (201 with `document_id = abc123` round-trips);
when the 200/201 body cannot be parsed, the raised JSON-decode error is
a `RequestException`, so it is surfaced as a `DocumentUploadError`
rather than swallowed or returned as success. -/
theorem upload_document_success_spec :
    (∀ org user mentor fp key burl (t : Int) status (m : JsonObj) text perr,
      (status = 200 ∨ status = 201) →
      (upload_document org user mentor fp key burl t
        (.response status (some m) text perr)).1 = Except.ok m) ∧
    (∀ org user mentor fp key burl (t : Int) status text perr,
      (status = 200 ∨ status = 201) →
      (upload_document org user mentor fp key burl t
        (.response status none text perr)).1 =
        Except.error ⟨"Request failed: " ++ perr⟩) ∧
    ((upload_document "syracuse" "jasidel" "25223e76-fc94-4cc2-aec1-f9fb51f0c2bf"
        "doc.pdf" "k123456789" "https://base.manager.ai.syr.edu" 300
        (.response 201 (some [("document_id", "abc123")]) "" "")).1 =
      Except.ok [("document_id", "abc123")] ∧
      jsonGet [("document_id", "abc123")] "document_id" = some "abc123") := by
  refine ⟨?_, ?_, by exact rfl, by exact rfl⟩ <;>
  · intro org user mentor fp key burl t status
    intros
    simp_all [upload_document]

/-- Witness for C2: the 201 round-trip, and an unparseable 200 body
surfacing as a `DocumentUploadError`. -/
theorem upload_document_success_spec_witness :
    (upload_document "syracuse" "jasidel" "m-1" "doc.pdf" "k123456789"
        "https://base.manager.ai.syr.edu" 300
        (.response 201 (some [("document_id", "abc123")]) "" "")).1 =
      Except.ok [("document_id", "abc123")] ∧
    (upload_document "syracuse" "jasidel" "m-1" "doc.pdf" "k123456789"
        "https://base.manager.ai.syr.edu" 300
        (.response 200 none "not json" "Expecting value: line 1 column 1 (char 0)")).1 =
      Except.error ⟨"Request failed: Expecting value: line 1 column 1 (char 0)"⟩ :=
  ⟨upload_document_success_spec.1 "syracuse" "jasidel" "m-1" "doc.pdf" "k123456789"
      "https://base.manager.ai.syr.edu" 300 201 [("document_id", "abc123")] "" ""
      (Or.inr rfl),
   upload_document_success_spec.2.1 "syracuse" "jasidel" "m-1" "doc.pdf" "k123456789"
      "https://base.manager.ai.syr.edu" 300 200 "not json"
      "Expecting value: line 1 column 1 (char 0)" (Or.inl rfl)⟩

/-- C3: non-success outcomes are all `DocumentUploadError`, classified
in the source's order: a non-200/201 status carries the status code and
the parsed body detail, falling back to the raw text when parsing
fails (401 with detail `invalid token` shown concretely); a transport
timeout yields the dedicated timeout message; a connection failure and
any other request exception are wrapped with their own prefixes. -/
theorem upload_document_failure_spec :
    (∀ org user mentor fp key burl (t : Int) status (d : JsonObj) text perr,
      ¬ (status = 200 ∨ status = 201) →
      (upload_document org user mentor fp key burl t
        (.response status (some d) text perr)).1 =
        Except.error ⟨"Upload failed with status " ++ toString status ++
          " Details: " ++ renderJson d⟩) ∧
    (∀ org user mentor fp key burl (t : Int) status text perr,
      ¬ (status = 200 ∨ status = 201) →
      (upload_document org user mentor fp key burl t
        (.response status none text perr)).1 =
        Except.error ⟨"Upload failed with status " ++ toString status ++
          " Response: " ++ text⟩) ∧
    (∀ org user mentor fp key burl (t : Int),
      (upload_document org user mentor fp key burl t .timeout).1 =
        Except.error ⟨"Upload timed out after " ++ toString t ++ " seconds. " ++
          "The file may be too large or the server is slow to respond."⟩) ∧
    (∀ org user mentor fp key burl (t : Int) m,
      (upload_document org user mentor fp key burl t (.connectionError m)).1 =
        Except.error ⟨"Connection error: " ++ m⟩) ∧
    (∀ org user mentor fp key burl (t : Int) m,
      (upload_document org user mentor fp key burl t (.requestException m)).1 =
        Except.error ⟨"Request failed: " ++ m⟩) ∧
    ((upload_document "syracuse" "jasidel" "m-1" "doc.pdf" "k123456789"
        "https://base.manager.ai.syr.edu" 300
        (.response 401 (some [("detail", "invalid token")]) "" "")).1 =
      Except.error ⟨"Upload failed with status 401 Details: " ++
        "\x7bdetail: invalid token\x7d"⟩) := by
  refine ⟨?_, ?_, ?_, ?_, ?_, by exact rfl⟩ <;>
  · intros
    simp_all [upload_document, String.append_assoc]

/-- Witness for C3: the 401/invalid-token example and the timeout
classification at timeout 1. -/
theorem upload_document_failure_spec_witness :
    (upload_document "syracuse" "jasidel" "m-1" "doc.pdf" "k123456789"
        "https://base.manager.ai.syr.edu" 300
        (.response 401 (some [("detail", "invalid token")]) "" "")).1 =
      Except.error ⟨"Upload failed with status 401 Details: " ++
        "\x7bdetail: invalid token\x7d"⟩ ∧
    (upload_document "syracuse" "jasidel" "m-1" "doc.pdf" "k123456789"
        "https://base.manager.ai.syr.edu" 1 .timeout).1 =
      Except.error ⟨"Upload timed out after 1 seconds. " ++
        "The file may be too large or the server is slow to respond."⟩ :=
  ⟨upload_document_failure_spec.1 "syracuse" "jasidel" "m-1" "doc.pdf" "k123456789"
      "https://base.manager.ai.syr.edu" 300 401 [("detail", "invalid token")] "" ""
      (by omega),
   upload_document_failure_spec.2.2.1 "syracuse" "jasidel" "m-1" "doc.pdf"
      "k123456789" "https://base.manager.ai.syr.edu" 1⟩

/-- C4 counterexample: with timeout 0 and an otherwise fully valid
environment, the run raises no `ConfigurationError` at all — the `try`
block is never entered (`outcome = none`) because `parser.error` raises
`SystemExit`, and the process exits with status 2, not 1. -/
theorem timeout_zero_no_configuration_error :
    (main_run ⟨⟨"syracuse", "jasidel", "25223e76-fc94-4cc2-aec1-f9fb51f0c2bf",
        "doc.pdf", "api_credentials.txt", "https://base.manager.ai.syr.edu", 0, false⟩,
      ⟨true, true, ["k123456789"]⟩, ⟨true, true, true, 2048⟩,
      .response 201 (some [("document_id", "abc123")]) "" ""⟩).outcome = none ∧
    (main_run ⟨⟨"syracuse", "jasidel", "25223e76-fc94-4cc2-aec1-f9fb51f0c2bf",
        "doc.pdf", "api_credentials.txt", "https://base.manager.ai.syr.edu", 0, false⟩,
      ⟨true, true, ["k123456789"]⟩, ⟨true, true, true, 2048⟩,
      .response 201 (some [("document_id", "abc123")]) "" ""⟩).exitCode = 2 :=
  ⟨rfl, rfl⟩

/-- C4 (amended): for every timeout value less than 1, argument parsing
fails with an argparse usage error that terminates the process with
exit status 2 — not with a `ConfigurationError` — before any file
validation, credential loading, or network activity occurs (no log
lines, no effects, `try` block never entered). -/
theorem timeout_lt_one_usage_exit (w : World) (h : w.args.timeout < 1) :
    main_run w = ⟨2, none, [], []⟩ := by
  simp [main_run, parse_arguments, h]

/-- Witness for amended C4: timeout 0 exits with status 2 and performs
nothing. -/
theorem timeout_lt_one_usage_exit_witness :
    main_run ⟨⟨"syracuse", "jasidel", "m-1", "doc.pdf", "api_credentials.txt",
        "https://base.manager.ai.syr.edu", 0, false⟩,
      ⟨true, true, ["k123456789"]⟩, ⟨true, true, true, 2048⟩,
      .response 201 (some [("document_id", "abc123")]) "" ""⟩ = ⟨2, none, [], []⟩ :=
  timeout_lt_one_usage_exit _ (by decide)

/-- C9: the exit code is 0 on upload success, 1 for every
`ConfigurationError`, `DocumentUploadError` and unexpected error
(all caught by the top-level handlers), 130 on user interrupt; and
`main`'s exit code is exactly the handler ladder applied to the `try`
block's outcome. -/
theorem exit_code_spec :
    (∀ r : JsonObj, outcome_exit_code (.success r) = 0) ∧
    (∀ e : ConfigurationError, outcome_exit_code (.configError e) = 1) ∧
    (∀ e : DocumentUploadError, outcome_exit_code (.uploadError e) = 1) ∧
    outcome_exit_code .keyboardInterrupt = 130 ∧
    (∀ m : String, outcome_exit_code (.unexpected m) = 1) ∧
    (∀ (w : World) (o : TryOutcome), (main_run w).outcome = some o →
      (main_run w).exitCode = outcome_exit_code o) := by
  refine ⟨fun r => rfl, fun e => rfl, fun e => rfl, rfl, fun m => rfl, ?_⟩
  intro w o h
  unfold main_run at h ⊢
  cases hp : parse_arguments w.args <;> simp_all

/-- Witness for C9: a fully successful concrete run exits 0 via the
handler ladder. -/
theorem exit_code_spec_witness :
    (main_run ⟨⟨"syracuse", "jasidel", "m-1", "doc.pdf", "api_credentials.txt",
        "https://base.manager.ai.syr.edu", 5, false⟩,
      ⟨true, true, ["k123456789"]⟩, ⟨true, true, true, 2048⟩,
      .response 201 (some [("document_id", "abc123")]) "" ""⟩).exitCode =
      outcome_exit_code (.success [("document_id", "abc123")]) :=
  exit_code_spec.2.2.2.2.2 _ (.success [("document_id", "abc123")]) rfl

/-- Helper: a file strictly larger than 100 MiB never validates. -/
theorem validate_file_path_error_of_large (fp : String) (info : FileInfo)
    (h : 104857600 < info.size) :
    ∃ e : ConfigurationError, (validate_file_path fp info).1 = Except.error e := by
  unfold validate_file_path
  split_ifs <;> simp_all [max_size]

/-- Helper: if any of the three validation stages raises
`ConfigurationError`, the `try` block ends in `configError` and sends
no HTTP request. -/
theorem run_body_config_error (w : World)
    (h : (∃ e, (validate_configuration w.args.org_id w.args.user_id
            w.args.mentor_id).1 = Except.error e) ∨
         (∃ e, (load_api_key w.args.credentials w.credFile).1 = Except.error e) ∨
         (∃ e, (validate_file_path w.args.file w.fileInfo).1 = Except.error e)) :
    (∃ e, (run_body w).1 = .configError e) ∧
    sentRequests (run_body w).2.2 = [] := by
  unfold run_body
  rcases hvc : validate_configuration w.args.org_id w.args.user_id w.args.mentor_id
    with ⟨rc, lgc⟩
  rcases rc with e | u
  · exact ⟨⟨e, rfl⟩, rfl⟩
  · rcases hlk : load_api_key w.args.credentials w.credFile with ⟨rk, lgk⟩
    rcases rk with e | key
    · exact ⟨⟨e, rfl⟩, rfl⟩
    · rcases hvf : validate_file_path w.args.file w.fileInfo with ⟨rf, lgf⟩
      rcases rf with e | path
      · exact ⟨⟨e, rfl⟩, rfl⟩
      · exfalso
        rw [hvc, hlk, hvf] at h
        simp at h

/-- C7: no network call occurs until configuration, credentials and the
file have all passed validation — whenever `validate_configuration`,
`load_api_key` or `validate_file_path` raises, `upload_document` is
never reached and no request is sent; in particular every file larger
than 100 MiB makes the run fail with `ConfigurationError` with no
network call. -/
theorem no_network_before_validation (w : World) (a : Args)
    (hp : parse_arguments w.args = .ok a)
    (h : (∃ e, (validate_configuration w.args.org_id w.args.user_id
            w.args.mentor_id).1 = Except.error e) ∨
         (∃ e, (load_api_key w.args.credentials w.credFile).1 = Except.error e) ∨
         (∃ e, (validate_file_path w.args.file w.fileInfo).1 = Except.error e) ∨
         104857600 < w.fileInfo.size) :
    (∃ e, (main_run w).outcome = some (.configError e)) ∧
    sentRequests (main_run w).effects = [] := by
  have h3 : (∃ e, (validate_configuration w.args.org_id w.args.user_id
        w.args.mentor_id).1 = Except.error e) ∨
      (∃ e, (load_api_key w.args.credentials w.credFile).1 = Except.error e) ∨
      (∃ e, (validate_file_path w.args.file w.fileInfo).1 = Except.error e) := by
    rcases h with h | h | h | h
    · exact Or.inl h
    · exact Or.inr (Or.inl h)
    · exact Or.inr (Or.inr h)
    · exact Or.inr (Or.inr (validate_file_path_error_of_large w.args.file w.fileInfo h))
  obtain ⟨⟨e, he⟩, hreq⟩ := run_body_config_error w h3
  unfold main_run
  rw [hp]
  exact ⟨⟨e, by simp [he]⟩, by simpa using hreq⟩

/-- Witness for C7: a 100 MiB + 1 byte file in an otherwise valid
environment yields a `ConfigurationError` outcome with no request
sent. -/
theorem no_network_before_validation_witness :
    (∃ e, (main_run ⟨⟨"syracuse", "jasidel", "m-1", "big.pdf", "api_credentials.txt",
        "https://base.manager.ai.syr.edu", 5, false⟩,
      ⟨true, true, ["k123456789"]⟩, ⟨true, true, true, 104857601⟩,
      .response 201 (some [("document_id", "abc123")]) "" ""⟩).outcome =
        some (.configError e)) ∧
    sentRequests (main_run ⟨⟨"syracuse", "jasidel", "m-1", "big.pdf",
        "api_credentials.txt", "https://base.manager.ai.syr.edu", 5, false⟩,
      ⟨true, true, ["k123456789"]⟩, ⟨true, true, true, 104857601⟩,
      .response 201 (some [("document_id", "abc123")]) "" ""⟩).effects = [] :=
  no_network_before_validation _ _ rfl (Or.inr (Or.inr (Or.inr (by decide))))

/-- Helper: the request `upload_document` sends is the same in every
transport branch: the templated URL, the `Api-Token` header, the
`file` multipart part and the three form fields. -/
theorem upload_document_request (org user mentor fp key burl : String) (t : Int)
    (tr : TransportOutcome) :
    (upload_document org user mentor fp key burl t tr).2.2 =
      { url := burl ++ "/api/ai-index/orgs/" ++ org ++ "/users/" ++ user ++
          "/documents/train/"
        authorization := "Api-Token " ++ key
        filePart := ⟨"file", pathName fp, mimeFor (pyLower (pathSuffix fp))⟩
        pathwayField := mentor
        typeField := "file"
        nameField := pathName fp } := by
  cases tr with
  | response status jsonBody text perr =>
    cases jsonBody <;> simp [upload_document] <;> split_ifs <;> rfl
  | timeout => rfl
  | connectionError m => rfl
  | requestException m => rfl

/-- C6: every validated run sends exactly one POST, to
`{baseUrl}/api/ai-index/orgs/{orgId}/users/{userId}/documents/train/`,
with `Authorization: Api-Token <key>`, one multipart file part named
`file` carrying (base name, stream, MIME type), and form fields
`pathway` = pathway id, `type` = `"file"`, `name` = base name; the MIME
type comes from the closed extension table, with
`application/octet-stream` plus a logged warning for any other
extension. -/
theorem upload_request_spec (w : World) (a : Args) (key path : String)
    (hp : parse_arguments w.args = .ok a)
    (hc : (validate_configuration w.args.org_id w.args.user_id
        w.args.mentor_id).1 = Except.ok ())
    (hk : (load_api_key w.args.credentials w.credFile).1 = Except.ok key)
    (hf : (validate_file_path w.args.file w.fileInfo).1 = Except.ok path) :
    (sentRequests (main_run w).effects =
      [{ url := w.args.base_url ++ "/api/ai-index/orgs/" ++ w.args.org_id ++
           "/users/" ++ w.args.user_id ++ "/documents/train/"
         authorization := "Api-Token " ++ key
         filePart := ⟨"file", pathName path, mimeFor (pyLower (pathSuffix path))⟩
         pathwayField := w.args.mentor_id
         typeField := "file"
         nameField := pathName path }]) ∧
    mimeFor ".pdf" = "application/pdf" ∧
    mimeFor ".txt" = "text/plain" ∧
    mimeFor ".doc" = "application/msword" ∧
    mimeFor ".docx" =
      "application/vnd.openxmlformats-officedocument.wordprocessingml.document" ∧
    (∀ ext, mime_types.find? (fun kv => kv.1 = ext) = none →
      mimeFor ext = "application/octet-stream") ∧
    (∀ org user mentor fp k burl (t : Int) tr,
      mimeFor (pyLower (pathSuffix fp)) = "application/octet-stream" →
      (⟨.warning, "Unknown file type: " ++ pyLower (pathSuffix fp) ++
        ", using generic MIME type"⟩ : LogLine) ∈
        (upload_document org user mentor fp k burl t tr).2.1) := by
  refine ⟨?_, rfl, rfl, rfl, rfl, ?_, ?_⟩
  · unfold main_run
    rw [hp]
    unfold run_body
    rcases hvc : validate_configuration w.args.org_id w.args.user_id w.args.mentor_id
      with ⟨rc, lgc⟩
    rw [hvc] at hc
    simp only at hc
    subst hc
    rcases hlk : load_api_key w.args.credentials w.credFile with ⟨rk, lgk⟩
    rw [hlk] at hk
    simp only at hk
    subst hk
    rcases hvf : validate_file_path w.args.file w.fileInfo with ⟨rf, lgf⟩
    rw [hvf] at hf
    simp only at hf
    subst hf
    rcases hu : upload_document w.args.org_id w.args.user_id w.args.mentor_id path
        key w.args.base_url w.args.timeout w.transport with ⟨ru, lgu, requ⟩
    have hreq := upload_document_request w.args.org_id w.args.user_id
      w.args.mentor_id path key w.args.base_url w.args.timeout w.transport
    rw [hu] at hreq
    simp only at hreq
    rcases ru with e | result <;> simp [sentRequests, hu, hreq]
  · intro ext h
    simp [mimeFor, h]
  · intro org user mentor fp k burl t tr h
    cases tr with
    | response status jsonBody text perr =>
      cases jsonBody <;> simp [upload_document, h] <;> split_ifs <;> simp
    | timeout => simp [upload_document, h]
    | connectionError m => simp [upload_document, h]
    | requestException m => simp [upload_document, h]

/-- Witness for C6: a validated concrete run with a `.docx` file sends
exactly the expected request, and an unknown extension gets the
octet-stream fallback with its warning. -/
theorem upload_request_spec_witness :
    sentRequests (main_run ⟨⟨"syracuse", "jasidel", "m-1", "notes/report.docx",
        "api_credentials.txt", "https://base.manager.ai.syr.edu", 5, false⟩,
      ⟨true, true, ["k123456789"]⟩, ⟨true, true, true, 2048⟩,
      .response 201 (some [("document_id", "abc123")]) "" ""⟩).effects =
      [{ url := "https://base.manager.ai.syr.edu/api/ai-index/orgs/syracuse/users/jasidel/documents/train/"
         authorization := "Api-Token k123456789"
         filePart := ⟨"file", "report.docx",
           "application/vnd.openxmlformats-officedocument.wordprocessingml.document"⟩
         pathwayField := "m-1"
         typeField := "file"
         nameField := "report.docx" }] ∧
    mimeFor ".xyz" = "application/octet-stream" ∧
    (⟨.warning, "Unknown file type: .xyz, using generic MIME type"⟩ : LogLine) ∈
      (upload_document "syracuse" "jasidel" "m-1" "data.xyz" "k123456789"
        "https://base.manager.ai.syr.edu" 5 .timeout).2.1 := by
  have h := upload_request_spec ⟨⟨"syracuse", "jasidel", "m-1", "notes/report.docx",
      "api_credentials.txt", "https://base.manager.ai.syr.edu", 5, false⟩,
    ⟨true, true, ["k123456789"]⟩, ⟨true, true, true, 2048⟩,
    .response 201 (some [("document_id", "abc123")]) "" ""⟩
    ⟨"syracuse", "jasidel", "m-1", "notes/report.docx", "api_credentials.txt",
      "https://base.manager.ai.syr.edu", 5, false⟩
    "k123456789" "notes/report.docx" rfl rfl rfl rfl
  refine ⟨h.1.trans (by rfl), h.2.2.2.2.2.1 ".xyz" (by rfl), ?_⟩
  exact h.2.2.2.2.2.2 "syracuse" "jasidel" "m-1" "data.xyz" "k123456789"
    "https://base.manager.ai.syr.edu" 5 .timeout (by rfl)

/-- A request with its Authorization header blanked, to compare
everything the API key must not influence. -/
def stripAuth (r : UploadHttpRequest) : UploadHttpRequest :=
  { r with authorization := "" }

/-- Helper: a successful key load emits exactly the fixed
`API key loaded successfully` line. -/
theorem load_api_key_ok_pair (c : String) (cf : CredFile) (k : String)
    (h : (load_api_key c cf).1 = Except.ok k) :
    load_api_key c cf = (Except.ok k, [⟨.info, "API key loaded successfully"⟩]) := by
  unfold load_api_key at h ⊢
  split_ifs at h ⊢ <;> simp_all <;> split_ifs at h ⊢ <;> simp_all

/-- Helper: the Authorization header carries exactly the key. -/
theorem upload_document_auth (org user mentor fp key burl : String) (t : Int)
    (tr : TransportOutcome) :
    (upload_document org user mentor fp key burl t tr).2.2.authorization =
      "Api-Token " ++ key := by
  rw [upload_document_request]

/-- Helper: the classified result, the log lines, and the whole request
apart from the Authorization header do not depend on the API key. -/
theorem upload_document_key_invariant (org user mentor fp k1 k2 burl : String)
    (t : Int) (tr : TransportOutcome) :
    (upload_document org user mentor fp k1 burl t tr).1 =
      (upload_document org user mentor fp k2 burl t tr).1 ∧
    (upload_document org user mentor fp k1 burl t tr).2.1 =
      (upload_document org user mentor fp k2 burl t tr).2.1 ∧
    stripAuth (upload_document org user mentor fp k1 burl t tr).2.2 =
      stripAuth (upload_document org user mentor fp k2 burl t tr).2.2 := by
  refine ⟨?_, ?_, ?_⟩
  · cases tr with
    | response s jb txt pe =>
      simp only [upload_document]
      cases jb <;> split_ifs <;> rfl
    | timeout => rfl
    | connectionError m => rfl
    | requestException m => rfl
  · cases tr with
    | response s jb txt pe =>
      simp only [upload_document]
      cases jb <;> split_ifs <;> rfl
    | timeout => rfl
    | connectionError m => rfl
    | requestException m => rfl
  · rw [upload_document_request, upload_document_request]
    simp [stripAuth]

/-- C10: the API key value influences nothing observable but the
Authorization header of the outbound request — two runs over identical
environments that differ only in the credential file, both of which
load a valid key, produce identical log output, identical outcomes
(hence identical error messages) and identical requests up to the
Authorization header, which is `Api-Token` followed by each run's own
key. -/
theorem api_key_noninterference (args : Args) (cf1 cf2 : CredFile)
    (fi : FileInfo) (tr : TransportOutcome) (k1 k2 : String)
    (h1 : (load_api_key args.credentials cf1).1 = Except.ok k1)
    (h2 : (load_api_key args.credentials cf2).1 = Except.ok k2) :
    (main_run ⟨args, cf1, fi, tr⟩).logs = (main_run ⟨args, cf2, fi, tr⟩).logs ∧
    (main_run ⟨args, cf1, fi, tr⟩).outcome = (main_run ⟨args, cf2, fi, tr⟩).outcome ∧
    (main_run ⟨args, cf1, fi, tr⟩).exitCode = (main_run ⟨args, cf2, fi, tr⟩).exitCode ∧
    (sentRequests (main_run ⟨args, cf1, fi, tr⟩).effects).map stripAuth =
      (sentRequests (main_run ⟨args, cf2, fi, tr⟩).effects).map stripAuth ∧
    (∀ r ∈ sentRequests (main_run ⟨args, cf1, fi, tr⟩).effects,
      r.authorization = "Api-Token " ++ k1) ∧
    (∀ r ∈ sentRequests (main_run ⟨args, cf2, fi, tr⟩).effects,
      r.authorization = "Api-Token " ++ k2) := by
  have p1 := load_api_key_ok_pair args.credentials cf1 k1 h1
  have p2 := load_api_key_ok_pair args.credentials cf2 k2 h2
  unfold main_run
  cases hp : parse_arguments args with
  | usageError c m => simp [sentRequests]
  | ok a =>
    unfold run_body
    simp only
    rcases hvc : validate_configuration args.org_id args.user_id args.mentor_id
      with ⟨rc, lgc⟩
    rcases rc with e | u
    · simp [sentRequests]
    · rw [p1, p2]
      rcases hvf : validate_file_path args.file fi with ⟨rf, lgf⟩
      rcases rf with e | path
      · simp [sentRequests]
      · rcases hu1 : upload_document args.org_id args.user_id args.mentor_id path
            k1 args.base_url args.timeout tr with ⟨r1, lg1, q1⟩
        rcases hu2 : upload_document args.org_id args.user_id args.mentor_id path
            k2 args.base_url args.timeout tr with ⟨r2, lg2, q2⟩
        have inv := upload_document_key_invariant args.org_id args.user_id
          args.mentor_id path k1 k2 args.base_url args.timeout tr
        have a1 := upload_document_auth args.org_id args.user_id args.mentor_id path
          k1 args.base_url args.timeout tr
        have a2 := upload_document_auth args.org_id args.user_id args.mentor_id path
          k2 args.base_url args.timeout tr
        rw [hu1] at inv a1
        rw [hu2] at inv a2
        simp only at inv a1 a2
        obtain ⟨hr, hlg, hq⟩ := inv
        subst hr
        subst hlg
        rcases r1 with e | result <;>
          simp_all [sentRequests]

/-- Witness for C10: two concrete runs differing only in the API key
have identical logs, outcome, exit code and stripped request. -/
theorem api_key_noninterference_witness :
    (main_run ⟨⟨"syracuse", "jasidel", "m-1", "doc.pdf", "api_credentials.txt",
        "https://base.manager.ai.syr.edu", 5, false⟩,
      ⟨true, true, ["k123456789"]⟩, ⟨true, true, true, 2048⟩,
      .response 201 (some [("document_id", "abc123")]) "" ""⟩).logs =
    (main_run ⟨⟨"syracuse", "jasidel", "m-1", "doc.pdf", "api_credentials.txt",
        "https://base.manager.ai.syr.edu", 5, false⟩,
      ⟨true, true, ["another-secret-key"]⟩, ⟨true, true, true, 2048⟩,
      .response 201 (some [("document_id", "abc123")]) "" ""⟩).logs ∧
    (∀ r ∈ sentRequests (main_run ⟨⟨"syracuse", "jasidel", "m-1", "doc.pdf",
        "api_credentials.txt", "https://base.manager.ai.syr.edu", 5, false⟩,
      ⟨true, true, ["k123456789"]⟩, ⟨true, true, true, 2048⟩,
      .response 201 (some [("document_id", "abc123")]) "" ""⟩).effects,
      r.authorization = "Api-Token " ++ "k123456789") :=
  have h := api_key_noninterference
    ⟨"syracuse", "jasidel", "m-1", "doc.pdf", "api_credentials.txt",
      "https://base.manager.ai.syr.edu", 5, false⟩
    ⟨true, true, ["k123456789"]⟩ ⟨true, true, ["another-secret-key"]⟩
    ⟨true, true, true, 2048⟩
    (.response 201 (some [("document_id", "abc123")]) "" "")
    "k123456789" "another-secret-key" rfl rfl
  ⟨h.1, h.2.2.2.2.1⟩

end AddFile
